import Mathlib

/-!
Shallow embedding of the rebuildTUI navigation core
(src/include/rebuildTUI/selectable_item.hpp, src/include/rebuildTUI/section.hpp,
src/src/navigation_tui.cpp) together with theorems settling the frozen claims
about it.

Conventions of the embedding:
* C++ `size_t` values are modelled as `Nat`; the `size_t` subtractions that the
  source performs and that can underflow at small, reachable inputs are
  modelled exactly with wraparound at `2 ^ 64` (`usub`).  Additions and
  multiplications are kept as plain `Nat` arithmetic (their C++ wraparound
  needs inputs near `2 ^ 64`, which the hypotheses of the theorems exclude
  explicitly where it could matter).
* C++ `int` values that interact with `size_t` state (page numbers) are kept
  as `Int` at the call boundary (`go_to_page`) exactly like the source, and
  stored as `Nat` after the bounds check, mirroring the source invariant that
  `current_page_` is never negative.
* User callbacks (`on_toggle`, `on_enter`, `on_item_toggled`, and the engine
  observers) are modelled by a Bool flag recording whether a callback is
  installed, plus an explicit ordered event trace of the callback invocations
  the operation performs.
* Strings are `List Char`; width is C++ `int`, hence `Int`.
-/

/-- One callback/observer invocation performed by an operation, in order. -/
inductive Event where
  /-- engine observer `on_state_changed_(old, new)` -/
  | stateChanged (oldIsSections newIsSections : Bool)
  /-- `Section::trigger_enter` invoking the section `on_enter` callback -/
  | sectionEnter (index : Nat)
  /-- engine observer `on_section_selected_(index, section)` (section identified
      by its name, the identity the source uses for sections) -/
  | sectionSelected (index : Nat) (sectionName : String)
  /-- engine observer `on_page_changed_(page, total_pages)` -/
  | pageChanged (page : Nat) (total : Nat)
  /-- engine observer `on_item_toggled_(section_index, item_index, new_state)` -/
  | itemToggled (sectionIndex itemIndex : Nat) (newState : Bool)
  /-- section callback `on_item_toggled(index, new_state)` -/
  | sectionItemToggled (index : Nat) (newState : Bool)
  /-- item callback `on_toggle(new_state)` -/
  | itemOnToggle (newState : Bool)
deriving DecidableEq

/-- `SelectableItem` from selectable_item.hpp.  `hasOnToggle` records whether
an `on_toggle` callback is attached. -/
structure SelectableItem where
  name : String
  description : String
  selected : Bool
  id : Int
  hasOnToggle : Bool
deriving DecidableEq

/-- `SelectableItem::toggle`: flips `selected`, fires `on_toggle` with the new
state when attached, returns the new state. -/
def SelectableItem.toggle (it : SelectableItem) : SelectableItem × Bool × List Event :=
  let it2 := { it with selected := !it.selected }
  (it2, it2.selected, if it.hasOnToggle then [Event.itemOnToggle it2.selected] else [])

/-- `SelectableItem::set_selected`: writes the new state and fires `on_toggle`
only when the state actually changes; returns whether it changed. -/
def SelectableItem.set_selected (it : SelectableItem) (newState : Bool) :
    SelectableItem × Bool × List Event :=
  if it.selected ≠ newState then
    ({ it with selected := newState }, true,
      if it.hasOnToggle then [Event.itemOnToggle newState] else [])
  else (it, false, [])

/-- `Section` from section.hpp.  `hasOnEnter` / `hasOnItemToggled` record
whether the respective callbacks are attached. -/
structure Section where
  name : String
  description : String
  items : List SelectableItem
  hasOnEnter : Bool
  hasOnItemToggled : Bool
deriving DecidableEq

/-- `Section::size`. -/
def Section.size (s : Section) : Nat := s.items.length

/-- `Section::toggle_item`: bounds-checked; toggles the item (which fires the
item callback), then fires the section `on_item_toggled` callback, and returns
`true`; out of range it is a no-op returning `false`. -/
def Section.toggle_item (s : Section) (index : Nat) : Section × Bool × List Event :=
  match s.items.get? index with
  | some it =>
      let r := it.toggle
      ({ s with items := s.items.set index r.1 }, true,
        r.2.2 ++ (if s.hasOnItemToggled then [Event.sectionItemToggled index r.2.1] else []))
  | none => (s, false, [])

/-- Modulus of C++ `size_t` arithmetic. -/
def usizeMod : Nat := 2 ^ 64

/-- C++ `size_t` subtraction `a - b` with wraparound (for `a, b < 2 ^ 64`). -/
def usub (a b : Nat) : Nat := (a + usizeMod - b) % usizeMod

theorem usub_of_le {a b : Nat} (hba : b ≤ a) (ha : a < usizeMod) : usub a b = a - b := by
  unfold usub
  have h1 : a + usizeMod - b = usizeMod + (a - b) := by omega
  rw [h1, Nat.add_mod_left]
  exact Nat.mod_eq_of_lt (by omega)

theorem usub_zero_one : usub 0 1 = usizeMod - 1 := by
  unfold usub usizeMod
  norm_num

/-- The total-page computation of `NavigationTUI::calculate_total_pages` for a
section of `n` items and page size `k`: `1` when the section is empty,
`(n + k - 1) / k` otherwise. -/
def totalPagesFor (n k : Nat) : Nat := if n = 0 then 1 else (n + k - 1) / k

/-- The page-bounds computation of `NavigationTUI::get_current_page_bounds`
for `n` items, page size `k`, page index `p`:
`start = p * k`, `end = min (start + k) n`. -/
def pageBoundsFor (n k p : Nat) : Nat × Nat := (p * k, min (p * k + k) n)

theorem totalPagesFor_pos (n k : Nat) (hk : 0 < k) : 0 < totalPagesFor n k := by
  unfold totalPagesFor
  by_cases h : n = 0
  · simp [h]
  · rw [if_neg h]
    have : 1 * k ≤ n + k - 1 := by omega
    have := (Nat.le_div_iff_mul_le hk).mpr this
    omega

theorem mul_lt_of_page_lt {n k p : Nat} (hk : 0 < k) (hn : 0 < n)
    (hp : p < totalPagesFor n k) : p * k < n := by
  unfold totalPagesFor at hp
  rw [if_neg (by omega)] at hp
  have h1 : p + 1 ≤ (n + k - 1) / k := hp
  have h2 : (p + 1) * k ≤ n + k - 1 := (Nat.le_div_iff_mul_le hk).mp h1
  have h3 : p * k + k ≤ n + k - 1 := by rw [Nat.succ_mul] at h2; omega
  omega

theorem le_totalPagesFor_mul (n k : Nat) (hk : 0 < k) : n ≤ totalPagesFor n k * k := by
  unfold totalPagesFor
  by_cases h : n = 0
  · simp [h]
  · rw [if_neg h]
    have hdm := Nat.div_add_mod (n + k - 1) k
    have hmlt := Nat.mod_lt (n + k - 1) hk
    rw [Nat.mul_comm]
    omega

theorem totalPagesFor_pred_mul_lt (n k : Nat) (hk : 0 < k) (hn : 0 < n) :
    (totalPagesFor n k - 1) * k < n := by
  have hpos := totalPagesFor_pos n k hk
  exact mul_lt_of_page_lt hk hn (by omega)

/-- `NavigationTUI::center_string`: text whose length reaches the width is
returned verbatim; shorter text gets `(width - length) / 2` spaces prepended
(the negative-padding guard of the source is kept although it is dead). -/
def center_string (text : List Char) (width : Int) : List Char :=
  if (text.length : Int) ≥ width then text
  else
    let padding : Int := (width - (text.length : Int)) / 2
    let padding := if padding < 0 then 0 else padding
    List.replicate padding.toNat ' ' ++ text

/-- Display lines of a string with embedded line breaks: split at each
newline character; the empty string is one empty line. -/
def splitLines : List Char → List (List Char)
  | [] => [[]]
  | c :: rest =>
      let r := splitLines rest
      if c = '\n' then [] :: r
      else (c :: r.headD []) :: r.tail

/-- Content of a display line with the centering padding removed. -/
def stripPad (s : List Char) : List Char := s.dropWhile (fun c => c = ' ')

theorem splitLines_ne_nil (s : List Char) : splitLines s ≠ [] := by
  cases s with
  | nil => simp [splitLines]
  | cons c rest =>
      unfold splitLines
      by_cases h : c = '\n' <;> simp [h]

theorem splitLines_of_no_newline {s : List Char} (h : '\n' ∉ s) : splitLines s = [s] := by
  induction s with
  | nil => rfl
  | cons c rest ih =>
      have hc : c ≠ '\n' := fun hc => h (hc ▸ List.mem_cons_self c rest)
      have hrest : '\n' ∉ rest := fun hm => h (List.mem_cons_of_mem c hm)
      unfold splitLines
      rw [if_neg hc, ih hrest]
      rfl

theorem splitLines_cons_of_ne {c : Char} (h : c ≠ '\n') (s : List Char) :
    splitLines (c :: s) = (c :: (splitLines s).headD []) :: (splitLines s).tail := by
  simp only [splitLines]
  rw [if_neg h]

theorem splitLines_length_replicate_append (p : Nat) (s : List Char) :
    (splitLines (List.replicate p ' ' ++ s)).length = (splitLines s).length := by
  induction p with
  | zero => simp
  | succ m ih =>
      rw [List.replicate_succ, List.cons_append, splitLines_cons_of_ne (by decide)]
      simp only [List.length_cons]
      cases hsp : splitLines (List.replicate m ' ' ++ s) with
      | nil => exact absurd hsp (splitLines_ne_nil _)
      | cons l ls =>
          rw [hsp] at ih
          simpa using ih

/-- `NavigationTUI::NavigationState`. -/
inductive NavState where
  | sectionSelection
  | itemSelection
deriving DecidableEq

/-- Whether a state is the section-selection state (used to report the
`state_changed` observer arguments as data). -/
def NavState.isSections : NavState → Bool
  | NavState.sectionSelection => true
  | NavState.itemSelection => false

/-- The navigation engine state of `NavigationTUI` (navigation_tui.cpp):
section collection, current state, the three indices, the page-size
configuration, the installed-observer flags and the redraw flag. -/
structure NavigationTUI where
  sections : List Section
  state : NavState
  currentSectionIndex : Nat
  currentSelectionIndex : Nat
  currentPage : Nat
  itemsPerPage : Nat
  hasSectionSelected : Bool
  hasItemToggled : Bool
  hasPageChanged : Bool
  hasStateChanged : Bool
  needsRedraw : Bool
deriving DecidableEq

/-- `NavigationTUI::calculate_total_pages`. -/
def NavigationTUI.calculate_total_pages (t : NavigationTUI) : Nat :=
  if t.state = NavState.sectionSelection then 1
  else if t.currentSectionIndex < t.sections.length then
    totalPagesFor (((t.sections.get? t.currentSectionIndex).map Section.size).getD 0)
      t.itemsPerPage
  else 1

/-- `NavigationTUI::get_current_page_bounds`. -/
def NavigationTUI.get_current_page_bounds (t : NavigationTUI) : Nat × Nat :=
  if t.state = NavState.itemSelection ∧ t.currentSectionIndex < t.sections.length then
    pageBoundsFor (((t.sections.get? t.currentSectionIndex).map Section.size).getD 0)
      t.itemsPerPage t.currentPage
  else (0, 0)

/-- `NavigationTUI::change_state`: fires `state_changed(old, new)` only when
the state actually differs. -/
def NavigationTUI.change_state (t : NavigationTUI) (newState : NavState) :
    NavigationTUI × List Event :=
  if t.state ≠ newState then
    ({ t with state := newState },
      if t.hasStateChanged then [Event.stateChanged t.state.isSections newState.isSections]
      else [])
  else (t, [])

/-- `NavigationTUI::enter_section`. -/
def NavigationTUI.enter_section (t : NavigationTUI) (sectionIndex : Nat) :
    NavigationTUI × List Event :=
  if sectionIndex < t.sections.length then
    let t1 := { t with currentSectionIndex := sectionIndex, currentSelectionIndex := 0,
                       currentPage := 0 }
    let r := t1.change_state NavState.itemSelection
    let secOpt := t.sections.get? sectionIndex
    let evs1 := if (secOpt.map Section.hasOnEnter).getD false then [Event.sectionEnter sectionIndex]
      else []
    let evs2 := if t.hasSectionSelected then
        [Event.sectionSelected sectionIndex ((secOpt.map Section.name).getD "")]
      else []
    ({ r.1 with needsRedraw := true }, r.2 ++ evs1 ++ evs2)
  else (t, [])

/-- `NavigationTUI::go_to_page` (argument is a C++ `int`). -/
def NavigationTUI.go_to_page (t : NavigationTUI) (page : Int) : NavigationTUI × List Event :=
  let total := t.calculate_total_pages
  if 0 ≤ page ∧ page < (total : Int) ∧ page ≠ (t.currentPage : Int) then
    ({ t with currentPage := page.toNat, currentSelectionIndex := 0, needsRedraw := true },
      if t.hasPageChanged then [Event.pageChanged page.toNat total] else [])
  else (t, [])

/-- `NavigationTUI::move_selection_up`.  The `size_t` subtractions
`bounds.second - bounds.first - 1` are modelled with wraparound (`usub`). -/
def NavigationTUI.move_selection_up (t : NavigationTUI) : NavigationTUI × List Event :=
  if t.state = NavState.sectionSelection then
    if 0 < t.currentSelectionIndex then
      ({ t with currentSelectionIndex := t.currentSelectionIndex - 1, needsRedraw := true }, [])
    else ({ t with needsRedraw := true }, [])
  else
    if 0 < t.currentSelectionIndex then
      ({ t with currentSelectionIndex := t.currentSelectionIndex - 1, needsRedraw := true }, [])
    else if 0 < t.currentPage then
      ({ (t.go_to_page ((t.currentPage : Int) - 1)).1 with
          currentSelectionIndex :=
            usub (usub (t.go_to_page ((t.currentPage : Int) - 1)).1.get_current_page_bounds.2
              (t.go_to_page ((t.currentPage : Int) - 1)).1.get_current_page_bounds.1) 1,
          needsRedraw := true },
        (t.go_to_page ((t.currentPage : Int) - 1)).2)
    else ({ t with needsRedraw := true }, [])

/-- `NavigationTUI::move_selection_down`.  The `size_t` comparisons against
`sections_.size() - 1` and `items_on_page - 1` are modelled with wraparound
(`usub`), exactly as the source computes them. -/
def NavigationTUI.move_selection_down (t : NavigationTUI) : NavigationTUI × List Event :=
  if t.state = NavState.sectionSelection then
    if t.currentSelectionIndex < usub t.sections.length 1 then
      ({ t with currentSelectionIndex := t.currentSelectionIndex + 1, needsRedraw := true }, [])
    else ({ t with needsRedraw := true }, [])
  else
    if t.currentSelectionIndex <
        usub (usub t.get_current_page_bounds.2 t.get_current_page_bounds.1) 1 then
      ({ t with currentSelectionIndex := t.currentSelectionIndex + 1, needsRedraw := true }, [])
    else
      if (t.currentPage : Int) < (t.calculate_total_pages : Int) - 1 then
        ({ (t.go_to_page ((t.currentPage : Int) + 1)).1 with
            currentSelectionIndex := 0, needsRedraw := true },
          (t.go_to_page ((t.currentPage : Int) + 1)).2)
      else ({ t with needsRedraw := true }, [])

/-- `NavigationTUI::toggle_current_item`. -/
def NavigationTUI.toggle_current_item (t : NavigationTUI) : NavigationTUI × List Event :=
  if t.state = NavState.itemSelection ∧ t.currentSectionIndex < t.sections.length then
    match t.sections.get? t.currentSectionIndex with
    | some sec =>
        let b := t.get_current_page_bounds
        let globalIndex := b.1 + t.currentSelectionIndex
        let r := sec.toggle_item globalIndex
        if r.2.1 then
          ({ t with sections := t.sections.set t.currentSectionIndex r.1, needsRedraw := true },
            r.2.2 ++ (if t.hasItemToggled then
              (match r.1.items.get? globalIndex with
               | some it => [Event.itemToggled t.currentSectionIndex globalIndex it.selected]
               | none => [])
            else []))
        else (t, r.2.2)
    | none => (t, [])
  else (t, [])

/-- `NavigationTUI::clamp_selection`.  In item selection the bound is the
`size_t` difference `bounds.second - bounds.first`, modelled with wraparound. -/
def NavigationTUI.clamp_selection (t : NavigationTUI) : NavigationTUI :=
  if t.state = NavState.sectionSelection then
    if t.sections.length ≤ t.currentSelectionIndex then
      { t with currentSelectionIndex :=
          if 0 < t.sections.length then t.sections.length - 1 else 0 }
    else t
  else
    let b := t.get_current_page_bounds
    let maxSelection := usub b.2 b.1
    if maxSelection ≤ t.currentSelectionIndex then
      { t with currentSelectionIndex := if 0 < maxSelection then maxSelection - 1 else 0 }
    else t

/-- `NavigationTUI::validate_indices`. -/
def NavigationTUI.validate_indices (t : NavigationTUI) : NavigationTUI :=
  let t1 := if t.sections.length ≤ t.currentSectionIndex then
      { t with currentSectionIndex := if 0 < t.sections.length then t.sections.length - 1 else 0 }
    else t
  t1.clamp_selection

/-- `NavigationTUI::remove_section`: bounds-checked erase followed by
`validate_indices`; returns whether a section was removed. -/
def NavigationTUI.remove_section (t : NavigationTUI) (index : Nat) : NavigationTUI × Bool :=
  if index < t.sections.length then
    (({ t with sections := t.sections.eraseIdx index }).validate_indices, true)
  else (t, false)

/-- `NavigationTUI::clear_sections`. -/
def NavigationTUI.clear_sections (t : NavigationTUI) : NavigationTUI :=
  { t with sections := [], currentSectionIndex := 0, currentSelectionIndex := 0,
           currentPage := 0, state := NavState.sectionSelection }

theorem calculate_total_pages_of_item {t : NavigationTUI} {sec : Section}
    (hst : t.state = NavState.itemSelection)
    (hidx : t.currentSectionIndex < t.sections.length)
    (hsec : t.sections.get? t.currentSectionIndex = some sec) :
    t.calculate_total_pages = totalPagesFor sec.size t.itemsPerPage := by
  unfold NavigationTUI.calculate_total_pages
  rw [hst, if_neg (by simp), if_pos hidx, hsec]
  rfl

theorem get_current_page_bounds_of_item {t : NavigationTUI} {sec : Section}
    (hst : t.state = NavState.itemSelection)
    (hidx : t.currentSectionIndex < t.sections.length)
    (hsec : t.sections.get? t.currentSectionIndex = some sec) :
    t.get_current_page_bounds = pageBoundsFor sec.size t.itemsPerPage t.currentPage := by
  unfold NavigationTUI.get_current_page_bounds
  rw [if_pos ⟨hst, hidx⟩, hsec]
  rfl

theorem center_string_eq_replicate (text : List Char) (w : Int) :
    center_string text w =
      List.replicate (max 0 ((w - (text.length : Int)) / 2)).toNat ' ' ++ text := by
  unfold center_string
  by_cases h : (text.length : Int) ≥ w
  · rw [if_pos h]
    have hle : w - (text.length : Int) ≤ 0 := by omega
    have hq : (w - (text.length : Int)) / 2 ≤ 0 := by
      have h2 : (w - (text.length : Int)) / 2 ≤ 0 / 2 := Int.ediv_le_ediv (by norm_num) hle
      simpa using h2
    rw [max_eq_left hq]
    simp
  · rw [if_neg h]
    have hq : 0 ≤ (w - (text.length : Int)) / 2 := Int.ediv_nonneg (by omega) (by norm_num)
    simp only [if_neg (not_lt.mpr hq)]
    rw [max_eq_right hq]

/-- C9: for every line of text (no embedded line break) and every width `w`,
`center_string` prepends exactly `max 0 ((w - len) / 2)` spaces to the text;
in particular, for text with no spaces and length below `w` the result is
exactly one display line equal to the original preceded by that padding. -/
theorem c9_centering :
    (∀ (text : List Char) (w : Int),
      center_string text w =
        List.replicate (max 0 ((w - (text.length : Int)) / 2)).toNat ' ' ++ text) ∧
    (∀ (text : List Char) (w : Int), '\n' ∉ text → (∀ c ∈ text, c ≠ ' ') →
      (text.length : Int) < w →
      splitLines (center_string text w) =
        [List.replicate (max 0 ((w - (text.length : Int)) / 2)).toNat ' ' ++ text]) := by
  refine ⟨center_string_eq_replicate, fun text w hnl _hsp _hlen => ?_⟩
  rw [center_string_eq_replicate text w]
  apply splitLines_of_no_newline
  intro hmem
  rcases List.mem_append.mp hmem with hm | hm
  · have := List.eq_of_mem_replicate hm
    cases this
  · exact hnl hm

/-- Witness for C9 at a concrete input: centering the 3-character space-free
line "abc" in width 9 yields the single line "   abc". -/
theorem c9_witness :
    splitLines (center_string "abc".toList 9) = ["   abc".toList] :=
  (c9_centering.2 "abc".toList 9 (by decide) (by decide) (by decide)).trans (by decide)

/-- The first (length-bound) conjunct of claim C1, stated as the claim states
it: for every width at least 1 and every input, every display line of the
output of `center_string`, once padding is stripped, fits in the width unless
it is an unbreakable word (contains no space). -/
def C1ClaimProp : Prop := ∀ (w : Int), 1 ≤ w → ∀ text : List Char,
  ∀ l ∈ splitLines (center_string text w),
    ((stripPad l).length : Int) ≤ w ∨ (∀ c ∈ stripPad l, c ≠ ' ')

/-- C1 fails on the code: `center_string` never word-wraps.  At width 4 the
input "ab cd" (length 5, containing a space) is emitted verbatim as one line
whose content exceeds the width and is not an unbreakable word; no break at
the last space happens. -/
theorem c1_counterexample : ¬ C1ClaimProp := by
  intro h
  have h2 := h 4 (by norm_num) "ab cd".toList "ab cd".toList (by decide)
  rcases h2 with h2 | h2
  · exact absurd h2 (by decide)
  · exact (h2 ' ' (by decide)) rfl

/-- C1 amended: `center_string` performs no wrapping at all.  For every width
and input, the output is the input with some number of padding spaces
prepended (zero when the input is at least as long as the width, even when
the input contains spaces), and no line break is introduced: the output has
exactly as many display lines as the input. -/
theorem c1_no_wrapping (text : List Char) (w : Int) :
    ∃ p : Nat, center_string text w = List.replicate p ' ' ++ text ∧
      ((text.length : Int) ≥ w → p = 0) ∧
      (splitLines (center_string text w)).length = (splitLines text).length := by
  refine ⟨(max 0 ((w - (text.length : Int)) / 2)).toNat,
    center_string_eq_replicate text w, fun hlong => ?_, ?_⟩
  · have hle : w - (text.length : Int) ≤ 0 := by omega
    have hq : (w - (text.length : Int)) / 2 ≤ 0 := by
      have h2 : (w - (text.length : Int)) / 2 ≤ 0 / 2 := Int.ediv_le_ediv (by norm_num) hle
      simpa using h2
    omega
  · rw [center_string_eq_replicate text w]
    exact splitLines_length_replicate_append _ _

/-- The claim C2 exactly as stated: the pagination formulas together with
`start ≤ end ≤ n` and `end - start ≤ k` for EVERY page index `p ≥ 0`. -/
def C2ClaimProp : Prop := ∀ n k p : Nat, 1 ≤ k →
  (n = 0 → totalPagesFor n k = 1) ∧
  (0 < n → n ≤ totalPagesFor n k * k ∧ (totalPagesFor n k - 1) * k < n) ∧
  (pageBoundsFor n k p).1 = p * k ∧
  (pageBoundsFor n k p).2 = min (p * k + k) n ∧
  (pageBoundsFor n k p).1 ≤ (pageBoundsFor n k p).2 ∧
  (pageBoundsFor n k p).2 ≤ n ∧
  (pageBoundsFor n k p).2 - (pageBoundsFor n k p).1 ≤ k

/-- C2 fails as stated: the start bound is never clamped, so for `n = 1`,
`k = 1`, `p = 2` the bounds are `(2, 1)` and `start ≤ end` fails. -/
theorem c2_counterexample : ¬ C2ClaimProp := by
  intro h
  have h2 := (h 1 1 2 le_rfl).2.2.2.2.1
  exact absurd h2 (by decide)

/-- C2 amended: the total-page and page-bounds formulas hold for all inputs,
and the bound inequalities `start ≤ end ≤ n`, `end - start ≤ k` hold for every
VALID page index `p < total_pages` (the source never clamps `start`, so they
fail for out-of-range pages). -/
theorem c2_pagination (n k p : Nat) (hk : 1 ≤ k) :
    (n = 0 → totalPagesFor n k = 1) ∧
    (0 < n → n ≤ totalPagesFor n k * k ∧ (totalPagesFor n k - 1) * k < n) ∧
    (pageBoundsFor n k p).1 = p * k ∧
    (pageBoundsFor n k p).2 = min (p * k + k) n ∧
    (p < totalPagesFor n k →
      (pageBoundsFor n k p).1 ≤ (pageBoundsFor n k p).2 ∧
      (pageBoundsFor n k p).2 ≤ n ∧
      (pageBoundsFor n k p).2 - (pageBoundsFor n k p).1 ≤ k) := by
  refine ⟨fun hn => by simp [totalPagesFor, hn],
    fun hn => ⟨le_totalPagesFor_mul n k hk, totalPagesFor_pred_mul_lt n k hk hn⟩,
    rfl, rfl, fun hp => ?_⟩
  by_cases hn : n = 0
  · subst hn
    have hp0 : p = 0 := by simpa [totalPagesFor] using hp
    subst hp0
    simp [pageBoundsFor]
  · have hstart := mul_lt_of_page_lt hk (Nat.pos_of_ne_zero hn) hp
    refine ⟨?_, ?_, ?_⟩ <;> simp only [pageBoundsFor, Nat.min_def] <;> split_ifs <;> omega

/-- Witness for C2 at the concrete Scenario A input: 25 items, page size 10,
page 2 (valid since total pages is 3): bounds satisfy the clamping bounds. -/
theorem c2_witness :
    (pageBoundsFor 25 10 2).1 ≤ (pageBoundsFor 25 10 2).2 ∧
    (pageBoundsFor 25 10 2).2 ≤ 25 ∧
    (pageBoundsFor 25 10 2).2 - (pageBoundsFor 25 10 2).1 ≤ 10 :=
  (c2_pagination 25 10 2 (by norm_num)).2.2.2.2 (by decide)

/-- C6: with an `on_toggle` callback attached, `set_selected v` fires the
callback exactly once and returns `true` when `v` differs from the current
state, and fires nothing and returns `false` when `v` equals it. -/
theorem c6_set_selected (it : SelectableItem) (v : Bool) (hcb : it.hasOnToggle = true) :
    (v ≠ it.selected →
      (it.set_selected v).2.1 = true ∧ (it.set_selected v).2.2 = [Event.itemOnToggle v]) ∧
    (v = it.selected → (it.set_selected v).2.1 = false ∧ (it.set_selected v).2.2 = []) := by
  unfold SelectableItem.set_selected
  constructor
  · intro hne
    rw [if_pos (Ne.symm hne)]
    simp [hcb]
  · intro heq
    rw [if_neg (by rw [heq]; exact fun hc => hc rfl)]
    exact ⟨rfl, rfl⟩

/-- Sample item with an attached `on_toggle` callback, for the C6 witness. -/
def sampleItem : SelectableItem :=
  { name := "X", description := "", selected := false, id := 0, hasOnToggle := true }

/-- Witness for C6: on an unselected item with a callback, `set_selected true`
fires exactly one callback and `set_selected false` fires none. -/
theorem c6_witness :
    ((sampleItem.set_selected true).2.1 = true ∧
      (sampleItem.set_selected true).2.2 = [Event.itemOnToggle true]) ∧
    ((sampleItem.set_selected false).2.1 = false ∧
      (sampleItem.set_selected false).2.2 = []) :=
  ⟨(c6_set_selected sampleItem true rfl).1 (by decide),
   (c6_set_selected sampleItem false rfl).2 (by decide)⟩

/-- C10: for an in-range index `i`, `Section::toggle_item i` returns `true`
and flips item `i` regardless of its prior value; `SelectableItem::toggle`
returns the new selected value; two consecutive `toggle_item i` calls restore
the original selected state of item `i`. -/
theorem c10_toggle_involution (s : Section) (i : Nat) (it : SelectableItem)
    (hit : s.items.get? i = some it) :
    (s.toggle_item i).2.1 = true ∧
    (s.toggle_item i).1.items.get? i = some { it with selected := !it.selected } ∧
    (∀ u : SelectableItem, (u.toggle).2.1 = !u.selected ∧ (u.toggle).1.selected = !u.selected) ∧
    ((s.toggle_item i).1.toggle_item i).1.items.get? i = some it := by
  have hlen : i < s.items.length := by
    by_contra hc
    rw [List.get?_len_le (by omega)] at hit
    cases hit
  have hset : (s.items.set i { it with selected := !it.selected }).get? i =
      some { it with selected := !it.selected } :=
    List.get?_set_eq_of_lt _ hlen
  constructor
  · unfold Section.toggle_item
    rw [hit]
  constructor
  · unfold Section.toggle_item
    rw [hit]
    simpa [SelectableItem.toggle] using hset
  constructor
  · intro u
    exact ⟨rfl, rfl⟩
  · unfold Section.toggle_item
    rw [hit]
    simp only [SelectableItem.toggle]
    rw [hset]
    have hset2 : ((s.items.set i { it with selected := !it.selected }).set i
        { it with selected := !(!it.selected) }).get? i =
        some { it with selected := !(!it.selected) } :=
      List.get?_set_eq_of_lt _ (by simpa using hlen)
    simpa [Bool.not_not] using hset2

/-- Sample one-item section for the C10 witness (Scenario B shape). -/
def sampleSection : Section :=
  { name := "S", description := "", items := [sampleItem],
    hasOnEnter := false, hasOnItemToggled := false }

/-- Witness for C10 at the concrete one-item section: toggling item 0 succeeds
and flips it, and toggling twice restores it. -/
theorem c10_witness :
    (sampleSection.toggle_item 0).2.1 = true ∧
    (sampleSection.toggle_item 0).1.items.get? 0 =
      some { sampleItem with selected := !sampleItem.selected } ∧
    ((sampleSection.toggle_item 0).1.toggle_item 0).1.items.get? 0 = some sampleItem := by
  have h := c10_toggle_involution sampleSection 0 sampleItem (by decide)
  exact ⟨h.1, h.2.1, h.2.2.2⟩

/-- C3: for every valid section index `i`, `enter_section i` sets the section
index to `i`, resets selection and page to 0, moves to item selection, and
fires the section `on_enter` callback followed by the engine
`section_selected(i, section)` observer, in that order. -/
theorem c3_enter_section (t : NavigationTUI) (i : Nat) (sec : Section)
    (hsec : t.sections.get? i = some sec)
    (hen : sec.hasOnEnter = true) (hob : t.hasSectionSelected = true) :
    (t.enter_section i).1.currentSectionIndex = i ∧
    (t.enter_section i).1.currentSelectionIndex = 0 ∧
    (t.enter_section i).1.currentPage = 0 ∧
    (t.enter_section i).1.state = NavState.itemSelection ∧
    ∃ pre, (t.enter_section i).2 =
      pre ++ [Event.sectionEnter i, Event.sectionSelected i sec.name] := by
  have hi : i < t.sections.length := by
    by_contra hc
    rw [List.get?_len_le (by omega)] at hsec
    cases hsec
  unfold NavigationTUI.enter_section NavigationTUI.change_state
  rw [if_pos hi]
  simp only [hsec, Option.map_some', Option.getD_some, hen, if_true, hob]
  by_cases hst : t.state = NavState.itemSelection
  · rw [if_neg (by simp [hst])]
    exact ⟨rfl, rfl, rfl, hst, [], rfl⟩
  · rw [if_pos (by simp [hst])]
    split_ifs with hcb
    · exact ⟨rfl, rfl, rfl, rfl,
        [Event.stateChanged t.state.isSections NavState.itemSelection.isSections], rfl⟩
    · exact ⟨rfl, rfl, rfl, rfl, [], rfl⟩

/-- Sample engine state in section selection with the observers installed,
holding the one-item sample section, for the C3 witness. -/
def sampleNav : NavigationTUI :=
  { sections := [{ sampleSection with hasOnEnter := true }],
    state := NavState.sectionSelection, currentSectionIndex := 0,
    currentSelectionIndex := 0, currentPage := 0, itemsPerPage := 10,
    hasSectionSelected := true, hasItemToggled := true, hasPageChanged := true,
    hasStateChanged := true, needsRedraw := false }

/-- Witness for C3: entering section 0 of the sample engine sets the indices,
moves to item selection and fires `on_enter` then `section_selected`. -/
theorem c3_witness :
    (sampleNav.enter_section 0).1.currentSectionIndex = 0 ∧
    (sampleNav.enter_section 0).1.currentSelectionIndex = 0 ∧
    (sampleNav.enter_section 0).1.currentPage = 0 ∧
    (sampleNav.enter_section 0).1.state = NavState.itemSelection ∧
    ∃ pre, (sampleNav.enter_section 0).2 =
      pre ++ [Event.sectionEnter 0, Event.sectionSelected 0 "S"] :=
  c3_enter_section sampleNav 0 { sampleSection with hasOnEnter := true } rfl rfl rfl

/-- C7: each index-based operation degrades to a no-op on invalid input:
entering an out-of-range section, paging outside `[0, total_pages)`, toggling
when the computed absolute item index is past the section end, and removing a
non-existent section all leave the state unchanged and fire no observer. -/
theorem c7_invalid_inputs_noop (t : NavigationTUI) (i : Nat) (p : Int) (sec : Section) :
    (t.sections.length ≤ i → t.enter_section i = (t, [])) ∧
    (p < 0 ∨ (t.calculate_total_pages : Int) ≤ p → t.go_to_page p = (t, [])) ∧
    (t.state = NavState.itemSelection →
      t.sections.get? t.currentSectionIndex = some sec →
      sec.size ≤ t.get_current_page_bounds.1 + t.currentSelectionIndex →
      t.toggle_current_item = (t, [])) ∧
    (t.sections.length ≤ i → t.remove_section i = (t, false)) := by
  refine ⟨fun hout => ?_, fun hout => ?_, fun hst hsec hpast => ?_, fun hout => ?_⟩
  · unfold NavigationTUI.enter_section
    rw [if_neg (by omega)]
  · unfold NavigationTUI.go_to_page
    rw [if_neg]
    rintro ⟨h0, h1, -⟩
    rcases hout with hout | hout <;> omega
  · have hi : t.currentSectionIndex < t.sections.length := by
      by_contra hc
      rw [List.get?_len_le (by omega)] at hsec
      cases hsec
    unfold NavigationTUI.toggle_current_item
    rw [if_pos ⟨hst, hi⟩]
    simp only [hsec]
    unfold Section.toggle_item
    rw [List.get?_len_le (by simpa [Section.size] using hpast)]
    simp
  · unfold NavigationTUI.remove_section
    rw [if_neg (by omega)]

/-- Sample engine state inside the one-item section but on a stale page whose
absolute index range is past the section end, for the C7 witness. -/
def sampleNavPast : NavigationTUI :=
  { sections := [sampleSection],
    state := NavState.itemSelection, currentSectionIndex := 0,
    currentSelectionIndex := 0, currentPage := 1, itemsPerPage := 10,
    hasSectionSelected := true, hasItemToggled := true, hasPageChanged := true,
    hasStateChanged := true, needsRedraw := false }

/-- Witness for C7: on the sample engine, section index 5 and page -1 are
rejected unchanged, and toggling with absolute index 10 past the 1-item
section end is a no-op. -/
theorem c7_witness :
    sampleNavPast.enter_section 5 = (sampleNavPast, []) ∧
    sampleNavPast.go_to_page (-1) = (sampleNavPast, []) ∧
    sampleNavPast.toggle_current_item = (sampleNavPast, []) ∧
    sampleNavPast.remove_section 5 = (sampleNavPast, false) := by
  have h := c7_invalid_inputs_noop sampleNavPast 5 (-1) sampleSection
  exact ⟨h.1 (by decide), h.2.1 (by norm_num), h.2.2.1 rfl rfl (by decide), h.2.2.2 (by decide)⟩

/-- Engine state with an empty section list in section selection (the state
the engine is in right after construction), the failing input of C5. -/
def emptyNav : NavigationTUI :=
  { sections := [], state := NavState.sectionSelection, currentSectionIndex := 0,
    currentSelectionIndex := 0, currentPage := 0, itemsPerPage := 10,
    hasSectionSelected := false, hasItemToggled := false, hasPageChanged := false,
    hasStateChanged := false, needsRedraw := false }

/-- C5 fails on the code: with an empty section list, `move_selection_down`
compares the selection index against the `size_t` expression
`sections_.size() - 1`, which underflows to `2 ^ 64 - 1`, so the index is
incremented from 0 to 1 instead of being clamped inside the (empty)
section-list range `[0, len - 1]`. -/
theorem c5_empty_list_underflow :
    (emptyNav.move_selection_down).1.currentSelectionIndex = 1 ∧
    ¬(((emptyNav.move_selection_down).1.currentSelectionIndex : Int) ≤
        (emptyNav.sections.length : Int) - 1) := by
  constructor
  · decide
  · decide

/-- Item number `j` used to populate the 25-item section of the C4/C8
concrete states. -/
def numberedItem (j : Nat) : SelectableItem :=
  { name := toString j, description := "", selected := false, id := Int.ofNat j,
    hasOnToggle := false }

/-- A 25-item section: 3 pages at page size 10, the last page holding 5. -/
def bigSection : Section :=
  { name := "B", description := "", items := (List.range 25).map numberedItem,
    hasOnEnter := false, hasOnItemToggled := false }

/-- An empty section placed before `bigSection` in the C8 failing state. -/
def emptySection : Section :=
  { name := "A", description := "", items := [],
    hasOnEnter := false, hasOnItemToggled := false }

/-- The C8 failing input: viewing page 2 (items 20..24), selection 4, of the
25-item section at index 1, when that very section is removed. -/
def staleNav : NavigationTUI :=
  { sections := [emptySection, bigSection], state := NavState.itemSelection,
    currentSectionIndex := 1, currentSelectionIndex := 4, currentPage := 2,
    itemsPerPage := 10, hasSectionSelected := false, hasItemToggled := false,
    hasPageChanged := false, hasStateChanged := false, needsRedraw := false }

/-- C8: clearing the section collection does reset the navigation state to its
initial values, but after `remove_section` the item-selection invariant is NOT
re-established: on the failing input the engine keeps `current_page = 2` and
`current_selection_index = 4` although the now-current section is empty and
the page bounds are `(20, 0)`, so the selection index does not lie in
`[0, end - start)` (the clamp computes the `size_t` difference `0 - 20`,
which underflows, so it never fires, and `current_page` is never re-clamped). -/
theorem c8_remove_section_stale_indices :
    (∀ u : NavigationTUI,
      (u.clear_sections).sections = [] ∧
      (u.clear_sections).state = NavState.sectionSelection ∧
      (u.clear_sections).currentSectionIndex = 0 ∧
      (u.clear_sections).currentSelectionIndex = 0 ∧
      (u.clear_sections).currentPage = 0) ∧
    ((staleNav.remove_section 1).1.currentSectionIndex = 0 ∧
      (staleNav.remove_section 1).1.state = NavState.itemSelection ∧
      (staleNav.remove_section 1).1.currentSelectionIndex = 4 ∧
      (staleNav.remove_section 1).1.currentPage = 2 ∧
      (staleNav.remove_section 1).1.get_current_page_bounds = (20, 0) ∧
      ¬(((staleNav.remove_section 1).1.currentSelectionIndex : Int) <
          ((staleNav.remove_section 1).1.get_current_page_bounds.2 : Int) -
          ((staleNav.remove_section 1).1.get_current_page_bounds.1 : Int))) := by
  constructor
  · intro u
    exact ⟨rfl, rfl, rfl, rfl, rfl⟩
  · refine ⟨by decide, by decide, by decide, by decide, by decide, by decide⟩

theorem go_to_page_accepts {t : NavigationTUI} {page : Int}
    (h0 : 0 ≤ page) (h1 : page < (t.calculate_total_pages : Int))
    (h2 : page ≠ (t.currentPage : Int)) :
    t.go_to_page page =
      ({ t with currentPage := page.toNat, currentSelectionIndex := 0, needsRedraw := true },
        if t.hasPageChanged then [Event.pageChanged page.toNat t.calculate_total_pages]
        else []) := by
  unfold NavigationTUI.go_to_page
  rw [if_pos ⟨h0, h1, h2⟩]

theorem size_pos_of_page_pos {n k p : Nat} (hpv : p < totalPagesFor n k) (hp : 0 < p) :
    0 < n := by
  rcases Nat.eq_zero_or_pos n with h | h
  · subst h
    simp [totalPagesFor] at hpv
    omega
  · exact h

theorem size_pos_of_succ_page_lt {n k p : Nat} (hpv : p + 1 < totalPagesFor n k) : 0 < n := by
  rcases Nat.eq_zero_or_pos n with h | h
  · subst h
    simp [totalPagesFor] at hpv
  · exact h

theorem pred_mul_add_self {p k : Nat} (hp : 0 < p) : (p - 1) * k + k = p * k := by
  have h2 : k ≤ p * k := by
    calc k = 1 * k := (one_mul k).symm
    _ ≤ p * k := Nat.mul_le_mul_right k hp
  rw [Nat.sub_mul, one_mul, Nat.sub_add_cancel h2]

theorem c4_up_wraps {t : NavigationTUI} {sec : Section}
    (hst : t.state = NavState.itemSelection)
    (hidx : t.currentSectionIndex < t.sections.length)
    (hsec : t.sections.get? t.currentSectionIndex = some sec)
    (hk : 0 < t.itemsPerPage) (hkU : t.itemsPerPage < usizeMod)
    (hnU : sec.size < usizeMod)
    (hsel : t.currentSelectionIndex = 0) (hpg : 0 < t.currentPage)
    (hpv : t.currentPage < totalPagesFor sec.size t.itemsPerPage) :
    (t.move_selection_up).1.currentPage = t.currentPage - 1 ∧
    (t.move_selection_up).1.currentSelectionIndex = t.itemsPerPage - 1 ∧
    (t.move_selection_up).1.currentSelectionIndex + 1 =
      (t.move_selection_up).1.get_current_page_bounds.2 -
      (t.move_selection_up).1.get_current_page_bounds.1 := by
  have hn : 0 < sec.size := size_pos_of_page_pos hpv hpg
  have hpk : t.currentPage * t.itemsPerPage < sec.size := mul_lt_of_page_lt hk hn hpv
  have htot := calculate_total_pages_of_item hst hidx hsec
  have hgoto := @go_to_page_accepts t ((t.currentPage : Int) - 1)
    (by omega) (by rw [htot]; omega) (by omega)
  have htn : ((t.currentPage : Int) - 1).toNat = t.currentPage - 1 := by omega
  have hmul := @pred_mul_add_self t.currentPage t.itemsPerPage hpg
  have hmin : min ((t.currentPage - 1) * t.itemsPerPage + t.itemsPerPage) sec.size =
      (t.currentPage - 1) * t.itemsPerPage + t.itemsPerPage := by
    apply Nat.min_eq_left
    omega
  have hbv : pageBoundsFor sec.size t.itemsPerPage (t.currentPage - 1) =
      ((t.currentPage - 1) * t.itemsPerPage,
        (t.currentPage - 1) * t.itemsPerPage + t.itemsPerPage) := by
    unfold pageBoundsFor
    rw [hmin]
  have hbv2 : pageBoundsFor sec.size t.itemsPerPage (((t.currentPage : Int) - 1).toNat) =
      ((t.currentPage - 1) * t.itemsPerPage,
        (t.currentPage - 1) * t.itemsPerPage + t.itemsPerPage) := by
    rw [htn]
    exact hbv
  have hb := @get_current_page_bounds_of_item
    { t with
      currentPage := ((t.currentPage : Int) - 1).toNat,
      currentSelectionIndex := 0,
      needsRedraw := true }
    sec hst hidx hsec
  rw [hbv2] at hb
  have hu1 : usub ((t.currentPage - 1) * t.itemsPerPage + t.itemsPerPage)
      ((t.currentPage - 1) * t.itemsPerPage) = t.itemsPerPage := by
    rw [usub_of_le (by omega) (by omega)]
    omega
  have hu2 : usub t.itemsPerPage 1 = t.itemsPerPage - 1 := usub_of_le hk hkU
  have hb2 := @get_current_page_bounds_of_item
    { t with
      currentPage := ((t.currentPage : Int) - 1).toNat,
      currentSelectionIndex := t.itemsPerPage - 1,
      needsRedraw := true }
    sec hst hidx hsec
  rw [hbv2] at hb2
  unfold NavigationTUI.move_selection_up
  rw [if_neg (by simp [hst]), if_neg (by omega), if_pos hpg, hgoto]
  simp only [hb, hu1, hu2]
  refine ⟨htn, trivial, ?_⟩
  rw [hb2]
  omega

theorem c4_down_wraps {t : NavigationTUI} {sec : Section}
    (hst : t.state = NavState.itemSelection)
    (hidx : t.currentSectionIndex < t.sections.length)
    (hsec : t.sections.get? t.currentSectionIndex = some sec)
    (hk : 0 < t.itemsPerPage) (hkU : t.itemsPerPage < usizeMod)
    (hnU : sec.size < usizeMod)
    (hsel : t.currentSelectionIndex + 1 =
      t.get_current_page_bounds.2 - t.get_current_page_bounds.1)
    (hpv : t.currentPage + 1 < totalPagesFor sec.size t.itemsPerPage) :
    (t.move_selection_down).1.currentPage = t.currentPage + 1 ∧
    (t.move_selection_down).1.currentSelectionIndex = 0 := by
  have hn : 0 < sec.size := size_pos_of_succ_page_lt hpv
  have hfull : (t.currentPage + 1) * t.itemsPerPage < sec.size :=
    mul_lt_of_page_lt hk hn hpv
  have hpkk : t.currentPage * t.itemsPerPage + t.itemsPerPage < sec.size := by
    rw [Nat.succ_mul] at hfull
    omega
  have hbt := get_current_page_bounds_of_item hst hidx hsec
  have hbv : pageBoundsFor sec.size t.itemsPerPage t.currentPage =
      (t.currentPage * t.itemsPerPage, t.currentPage * t.itemsPerPage + t.itemsPerPage) := by
    unfold pageBoundsFor
    rw [Nat.min_eq_left (by omega)]
  have hu1 : usub (t.currentPage * t.itemsPerPage + t.itemsPerPage)
      (t.currentPage * t.itemsPerPage) = t.itemsPerPage := by
    rw [usub_of_le (by omega) (by omega)]
    omega
  have hu2 : usub t.itemsPerPage 1 = t.itemsPerPage - 1 := usub_of_le hk hkU
  have hsel2 : t.currentSelectionIndex + 1 =
      t.currentPage * t.itemsPerPage + t.itemsPerPage - t.currentPage * t.itemsPerPage := by
    rw [hbt, hbv] at hsel
    exact hsel
  have htot := calculate_total_pages_of_item hst hidx hsec
  have hgoto := @go_to_page_accepts t ((t.currentPage : Int) + 1)
    (by omega) (by rw [htot]; omega) (by omega)
  have htn : ((t.currentPage : Int) + 1).toNat = t.currentPage + 1 := by omega
  have hcond : ¬ (t.currentSelectionIndex <
      usub (usub t.get_current_page_bounds.2 t.get_current_page_bounds.1) 1) := by
    rw [hbt, hbv]
    intro hcond
    have hcond2 : t.currentSelectionIndex <
        usub (usub (t.currentPage * t.itemsPerPage + t.itemsPerPage)
          (t.currentPage * t.itemsPerPage)) 1 := hcond
    rw [hu1, hu2] at hcond2
    omega
  unfold NavigationTUI.move_selection_down
  rw [if_neg (by simp [hst]), if_neg hcond, htot, if_pos (by omega), hgoto]
  exact ⟨htn, rfl⟩

theorem c4_up_noop {t : NavigationTUI}
    (hst : t.state = NavState.itemSelection)
    (hsel : t.currentSelectionIndex = 0) (hpg : t.currentPage = 0) :
    (t.move_selection_up).1.currentPage = t.currentPage ∧
    (t.move_selection_up).1.currentSelectionIndex = t.currentSelectionIndex := by
  unfold NavigationTUI.move_selection_up
  rw [if_neg (by simp [hst]), if_neg (by omega), if_neg (by omega)]
  exact ⟨rfl, rfl⟩

theorem c4_down_noop {t : NavigationTUI} {sec : Section}
    (hst : t.state = NavState.itemSelection)
    (hidx : t.currentSectionIndex < t.sections.length)
    (hsec : t.sections.get? t.currentSectionIndex = some sec)
    (hk : 0 < t.itemsPerPage) (hnU : sec.size < usizeMod)
    (hn : 0 < sec.size)
    (hlast : t.currentPage + 1 = totalPagesFor sec.size t.itemsPerPage)
    (hsel : t.currentSelectionIndex + 1 =
      t.get_current_page_bounds.2 - t.get_current_page_bounds.1) :
    (t.move_selection_down).1.currentPage = t.currentPage ∧
    (t.move_selection_down).1.currentSelectionIndex = t.currentSelectionIndex := by
  have hpk : t.currentPage * t.itemsPerPage < sec.size :=
    mul_lt_of_page_lt hk hn (by omega)
  have hbt := get_current_page_bounds_of_item hst hidx hsec
  have hlt : t.currentPage * t.itemsPerPage <
      min (t.currentPage * t.itemsPerPage + t.itemsPerPage) sec.size :=
    lt_min (by omega) hpk
  have hminle : min (t.currentPage * t.itemsPerPage + t.itemsPerPage) sec.size ≤ sec.size :=
    min_le_right _ _
  have hu1 : usub (min (t.currentPage * t.itemsPerPage + t.itemsPerPage) sec.size)
      (t.currentPage * t.itemsPerPage) =
      min (t.currentPage * t.itemsPerPage + t.itemsPerPage) sec.size -
        t.currentPage * t.itemsPerPage :=
    usub_of_le (by omega) (by omega)
  have hu2 : usub (min (t.currentPage * t.itemsPerPage + t.itemsPerPage) sec.size -
      t.currentPage * t.itemsPerPage) 1 =
      min (t.currentPage * t.itemsPerPage + t.itemsPerPage) sec.size -
        t.currentPage * t.itemsPerPage - 1 :=
    usub_of_le (by omega) (by omega)
  have hsel2 : t.currentSelectionIndex + 1 =
      min (t.currentPage * t.itemsPerPage + t.itemsPerPage) sec.size -
        t.currentPage * t.itemsPerPage := by
    rw [hbt] at hsel
    exact hsel
  have htot := calculate_total_pages_of_item hst hidx hsec
  have hcond : ¬ (t.currentSelectionIndex <
      usub (usub t.get_current_page_bounds.2 t.get_current_page_bounds.1) 1) := by
    rw [hbt]
    intro hcond
    have hcond2 : t.currentSelectionIndex <
        usub (usub (min (t.currentPage * t.itemsPerPage + t.itemsPerPage) sec.size)
          (t.currentPage * t.itemsPerPage)) 1 := hcond
    rw [hu1, hu2] at hcond2
    omega
  unfold NavigationTUI.move_selection_down
  rw [if_neg (by simp [hst]), if_neg hcond, htot, if_neg (by omega)]
  exact ⟨rfl, rfl⟩

/-- C4: in item selection, movement wraps across page boundaries and is a
no-op at the outer boundaries: moving up from index 0 with a positive page
number goes to the previous page and lands on its last index; moving down
from the last index of a page with more pages remaining advances to the next
page at index 0; moving up on page 0 at index 0 and moving down on the last
index of the last page leave page and selection unchanged. -/
theorem c4_page_boundary_movement {t : NavigationTUI} {sec : Section}
    (hst : t.state = NavState.itemSelection)
    (hidx : t.currentSectionIndex < t.sections.length)
    (hsec : t.sections.get? t.currentSectionIndex = some sec)
    (hk : 0 < t.itemsPerPage) (hkU : t.itemsPerPage < usizeMod)
    (hnU : sec.size < usizeMod) :
    (t.currentSelectionIndex = 0 → 0 < t.currentPage →
      t.currentPage < totalPagesFor sec.size t.itemsPerPage →
      (t.move_selection_up).1.currentPage = t.currentPage - 1 ∧
      (t.move_selection_up).1.currentSelectionIndex = t.itemsPerPage - 1 ∧
      (t.move_selection_up).1.currentSelectionIndex + 1 =
        (t.move_selection_up).1.get_current_page_bounds.2 -
        (t.move_selection_up).1.get_current_page_bounds.1) ∧
    (t.currentSelectionIndex + 1 =
        t.get_current_page_bounds.2 - t.get_current_page_bounds.1 →
      t.currentPage + 1 < totalPagesFor sec.size t.itemsPerPage →
      (t.move_selection_down).1.currentPage = t.currentPage + 1 ∧
      (t.move_selection_down).1.currentSelectionIndex = 0) ∧
    (t.currentSelectionIndex = 0 → t.currentPage = 0 →
      (t.move_selection_up).1.currentPage = t.currentPage ∧
      (t.move_selection_up).1.currentSelectionIndex = t.currentSelectionIndex) ∧
    (0 < sec.size →
      t.currentPage + 1 = totalPagesFor sec.size t.itemsPerPage →
      t.currentSelectionIndex + 1 =
        t.get_current_page_bounds.2 - t.get_current_page_bounds.1 →
      (t.move_selection_down).1.currentPage = t.currentPage ∧
      (t.move_selection_down).1.currentSelectionIndex = t.currentSelectionIndex) :=
  ⟨fun h1 h2 h3 => c4_up_wraps hst hidx hsec hk hkU hnU h1 h2 h3,
   fun h1 h2 => c4_down_wraps hst hidx hsec hk hkU hnU h1 h2,
   fun h1 h2 => c4_up_noop hst h1 h2,
   fun h1 h2 h3 => c4_down_noop hst hidx hsec hk hnU h1 h2 h3⟩

/-- Engine state on page 2 (of 3), selection 0, of the 25-item section. -/
def navPage2Sel0 : NavigationTUI :=
  { sections := [bigSection], state := NavState.itemSelection,
    currentSectionIndex := 0, currentSelectionIndex := 0, currentPage := 2,
    itemsPerPage := 10, hasSectionSelected := false, hasItemToggled := false,
    hasPageChanged := false, hasStateChanged := false, needsRedraw := false }

/-- Engine state on page 0, last index 9, of the 25-item section. -/
def navPage0Sel9 : NavigationTUI :=
  { navPage2Sel0 with currentPage := 0, currentSelectionIndex := 9 }

/-- Engine state on page 0, index 0, of the 25-item section. -/
def navPage0Sel0 : NavigationTUI :=
  { navPage2Sel0 with currentPage := 0, currentSelectionIndex := 0 }

/-- Engine state on the last page 2, last index 4, of the 25-item section. -/
def navPage2Sel4 : NavigationTUI :=
  { navPage2Sel0 with currentPage := 2, currentSelectionIndex := 4 }

/-- Witness for C4 on the 25-item, page-size-10 section: up from (page 2,
index 0) lands on (page 1, index 9 = last); down from (page 0, index 9) lands
on (page 1, index 0); up at (page 0, index 0) and down at (page 2, index 4)
are no-ops. -/
theorem c4_witness :
    ((navPage2Sel0.move_selection_up).1.currentPage = 1 ∧
      (navPage2Sel0.move_selection_up).1.currentSelectionIndex = 9) ∧
    ((navPage0Sel9.move_selection_down).1.currentPage = 1 ∧
      (navPage0Sel9.move_selection_down).1.currentSelectionIndex = 0) ∧
    ((navPage0Sel0.move_selection_up).1.currentPage = 0 ∧
      (navPage0Sel0.move_selection_up).1.currentSelectionIndex = 0) ∧
    ((navPage2Sel4.move_selection_down).1.currentPage = 2 ∧
      (navPage2Sel4.move_selection_down).1.currentSelectionIndex = 4) := by
  have h1 := (@c4_page_boundary_movement navPage2Sel0 bigSection
    rfl (by decide) rfl (by decide) (by decide) (by decide)).1 rfl (by decide) (by decide)
  have h2 := (@c4_page_boundary_movement navPage0Sel9 bigSection
    rfl (by decide) rfl (by decide) (by decide) (by decide)).2.1 (by decide) (by decide)
  have h3 := (@c4_page_boundary_movement navPage0Sel0 bigSection
    rfl (by decide) rfl (by decide) (by decide) (by decide)).2.2.1 rfl rfl
  have h4 := (@c4_page_boundary_movement navPage2Sel4 bigSection
    rfl (by decide) rfl (by decide) (by decide) (by decide)).2.2.2 (by decide) rfl (by decide)
  exact ⟨⟨h1.1, h1.2.1⟩, h2, h3, h4⟩

/-- Witness for the amended C1 at a concrete over-width input containing a
space: the output is the input itself (zero padding) and stays one line. -/
theorem c1_witness :
    ∃ p : Nat, center_string "ab cd".toList 4 = List.replicate p ' ' ++ "ab cd".toList ∧
      (("ab cd".toList.length : Int) ≥ 4 → p = 0) ∧
      (splitLines (center_string "ab cd".toList 4)).length =
        (splitLines "ab cd".toList).length :=
  c1_no_wrapping "ab cd".toList 4
